import Mathlib

/-!
Shallow embedding of `gisserver/parsers/fes20/identifiers.py` (the
`ResourceId` node of the FES 2.0 identifier parser) together with the
helper contracts it relies on.

Python exceptions are modelled as an explicit error type returned through
`Except`.  The `cached_property` used for `_rid_parts` is modelled by an
explicit node-plus-cache state (`ResourceIdState`), so that claims about
mutation and repeated calls are meaningful; the plain functions on
`ResourceId` are the projections of a run started from a fresh state.
-/

/-- Errors raised (or specified) around `ResourceId`.
`notImplementedError` is the exception raised literally by
`ResourceId.build_query`; `indexError` models Python's `IndexError` from a
list subscript; the remaining constructors model the error taxonomy of the
specification (`MissingAttributeError`, `MalformedFilterError`,
`MalformedValueError`). -/
inductive PyError where
  | notImplementedError (msg : String)
  | indexError
  | missingAttributeError (attr : String)
  | malformedFilterError (msg : String)
  | malformedValueError (msg : String)
deriving DecidableEq, Repr

/-- The `VersionActionTokens` enum of `identifiers.py`. -/
inductive VersionActionTokens where
  | FIRST
  | LAST
  | ALL
  | NEXT
  | PREVIOUS
deriving DecidableEq, Repr

/-- A parsed timestamp (`datetime.datetime`), kept as its calendar fields.
Python `datetime` instances are always truthy. -/
structure Datetime where
  year : Nat
  month : Nat
  day : Nat
  hour : Nat
  minute : Nat
  second : Nat
deriving DecidableEq, Repr

/-- The possible non-`None` values of the `version` field of `ResourceId`:
the dataclass annotation allows `int`, `datetime` and `VersionActionTokens`,
and `from_xml` can additionally store a plain string (in particular the
empty string, which skips auto-casting).  `floatLit`/`boolLit` cover the
float and boolean results of the spec's `autoCast`. -/
inductive Version where
  | int (n : Int)
  | datetime (d : Datetime)
  | token (t : VersionActionTokens)
  | str (s : String)
  | floatLit (s : String)
  | boolLit (b : Bool)
deriving DecidableEq, Repr

/-- Python's `str.rsplit(sep, 1)` core: locate the LAST occurrence of `c`
and return the characters before and after it, or `none` when `c` does not
occur. -/
def rsplitLast (c : Char) : List Char → Option (List Char × List Char)
  | [] => none
  | x :: xs =>
    match rsplitLast c xs with
    | some p => some (x :: p.1, p.2)
    | none => if x = c then some ([], xs) else none

theorem rsplitLast_eq_none (c : Char) : ∀ s : List Char, rsplitLast c s = none ↔ c ∉ s
  | [] => by simp [rsplitLast]
  | x :: xs => by
    have ih := rsplitLast_eq_none c xs
    rw [rsplitLast]
    cases h : rsplitLast c xs with
    | none =>
      rw [h] at ih
      have hxs : c ∉ xs := ih.mp rfl
      by_cases hx : x = c
      · subst hx
        simp
      · have hmem : c ∉ x :: xs := by
          intro hc
          rcases List.mem_cons.mp hc with h1 | h2
          · exact hx h1.symm
          · exact hxs h2
        simp [hx, hmem]
    | some p =>
      rw [h] at ih
      have hcs : c ∈ xs := by
        by_contra hc
        exact Option.some_ne_none p (ih.mpr hc)
      constructor
      · intro hfalse
        exact absurd hfalse (Option.some_ne_none _)
      · intro hn
        exact absurd (List.mem_cons_of_mem x hcs) hn

theorem rsplitLast_eq_some (c : Char) :
    ∀ s l r : List Char, rsplitLast c s = some (l, r) → s = l ++ c :: r ∧ c ∉ r
  | [], l, r => by
    intro h
    exact absurd h (by simp [rsplitLast])
  | x :: xs, l, r => by
    rw [rsplitLast]
    cases h : rsplitLast c xs with
    | some p =>
      intro heq
      obtain ⟨l0, r0⟩ := p
      simp only [Option.some.injEq, Prod.mk.injEq] at heq
      obtain ⟨hl, hr⟩ := heq
      subst hl
      subst hr
      have ih := rsplitLast_eq_some c xs l0 r0 h
      refine ⟨?_, ih.2⟩
      rw [ih.1]
      rfl
    | none =>
      intro heq
      by_cases hx : x = c
      · rw [if_pos hx] at heq
        simp only [Option.some.injEq, Prod.mk.injEq] at heq
        obtain ⟨hl, hr⟩ := heq
        subst hl
        subst hr
        subst hx
        exact ⟨rfl, (rsplitLast_eq_none x xs).mp h⟩
      · rw [if_neg hx] at heq
        exact absurd heq (by simp)

theorem rsplitLast_concat (c : Char) (r : List Char) (hr : c ∉ r) :
    ∀ l : List Char, rsplitLast c (l ++ c :: r) = some (l, r)
  | [] => by
    rw [List.nil_append, rsplitLast, (rsplitLast_eq_none c r).mpr hr]
    simp
  | x :: l => by
    rw [List.cons_append, rsplitLast, rsplitLast_concat c r hr l]

theorem string_data_ext (a b : String) (h : a.data = b.data) : a = b := by
  cases a
  cases b
  cases h
  rfl

theorem string_mk_data (s : String) : String.mk s.data = s := rfl

theorem string_append_data (a b : String) : (a ++ b).data = a.data ++ b.data := by
  cases a
  cases b
  rfl

/-- The `<fes:ResourceId>` dataclass: fields `rid`, `version`, `startTime`,
`endTime` with `None` defaults for the last three. -/
structure ResourceId where
  rid : String
  version : Option Version := none
  startTime : Option Datetime := none
  endTime : Option Datetime := none
deriving DecidableEq, Repr

/-- `self.rid.rsplit(".", 1)`: two parts around the last `.`, or the whole
string as a single part when no `.` occurs. -/
def ResourceId._rid_parts (r : ResourceId) : List String :=
  match rsplitLast '.' r.rid.data with
  | some p => [String.mk p.1, String.mk p.2]
  | none => [r.rid]

/-- A `ResourceId` instance at runtime: the dataclass fields together with
the memo slot that `cached_property` adds for `_rid_parts` on first
access. -/
structure ResourceIdState where
  node : ResourceId
  rid_parts_cache : Option (List String)
deriving DecidableEq, Repr

/-- A freshly constructed instance: no cached `_rid_parts` yet. -/
def ResourceId.fresh (r : ResourceId) : ResourceIdState := ⟨r, none⟩

/-- Reading the `_rid_parts` cached property: return the memoised list if
present, otherwise compute the split and store it. -/
def ResourceIdState.cached_rid_parts (s : ResourceIdState) :
    List String × ResourceIdState :=
  match s.rid_parts_cache with
  | some p => (p, s)
  | none =>
    let p := s.node._rid_parts
    (p, { s with rid_parts_cache := some p })

/-- Python list subscription `l[n]` for n ≥ 0: `IndexError` out of range. -/
def pyListGet (l : List String) (n : Nat) : Except PyError String :=
  match l.get? n with
  | some x => Except.ok x
  | none => Except.error PyError.indexError

/-- The `type_name` property: `self._rid_parts[0]`. -/
def ResourceIdState.type_name (s : ResourceIdState) :
    Except PyError String × ResourceIdState :=
  let q := s.cached_rid_parts
  (pyListGet q.1 0, q.2)

/-- The `id` property: `self._rid_parts[1]`. -/
def ResourceIdState.id (s : ResourceIdState) :
    Except PyError String × ResourceIdState :=
  let q := s.cached_rid_parts
  (pyListGet q.1 1, q.2)

/-- Whether `s` consists only of `0` digits, a dot and an optional sign,
i.e. whether a decimal float literal denotes `0.0`. -/
def floatLitIsZero (s : String) : Bool :=
  let core := match s.data with
    | '-' :: rest => rest
    | '+' :: rest => rest
    | l => l
  core.all fun ch => ch = '0' || ch = '.'

/-- Python truthiness of a non-`None` `version` value: `0`, `""` and `0.0`
are falsy; datetimes and enum members are always truthy. -/
def Version.py_truthy : Version → Bool
  | .int n => decide (n ≠ 0)
  | .datetime _ => true
  | .token _ => true
  | .str s => decide (s ≠ "")
  | .floatLit s => !(floatLitIsZero s)
  | .boolLit b => b

/-- Python truthiness of the optional `version` field. -/
def truthyOptVersion : Option Version → Bool
  | none => false
  | some v => v.py_truthy

/-- Python truthiness of an optional `datetime` field (`datetime` values
are always truthy). -/
def truthyOptDatetime : Option Datetime → Bool
  | none => false
  | some _ => true

/-- The guard `if self.startTime or self.endTime or self.version:` of
`build_query`. -/
def versionedCond (r : ResourceId) : Bool :=
  truthyOptDatetime r.startTime || truthyOptDatetime r.endTime ||
    truthyOptVersion r.version

/-- The exact message of the `NotImplementedError` raised by
`build_query`. -/
def versionedMsg : String :=
  "No support for <fes:ResourceId> startTime/endTime/version attributes"

/-- The `fesquery` argument of `build_query`; it is never consulted by
`ResourceId.build_query`, so it carries no data here. -/
structure FesQuery where
deriving DecidableEq, Repr

/-- The Django `Q(pk=...)` predicate produced by `build_query`: one
keyword equality of a field name against a value. -/
structure Q where
  field : String
  value : String
deriving DecidableEq, Repr

/-- `ResourceId.build_query`: raise `NotImplementedError` when any of
`startTime`/`endTime`/`version` is truthy, otherwise return
`Q(pk=self.id)` (which reads the cached `_rid_parts` and may raise
`IndexError` from the `[1]` subscript). -/
def ResourceIdState.build_query (s : ResourceIdState) (fesquery : FesQuery) :
    Except PyError Q × ResourceIdState :=
  if versionedCond s.node then
    (Except.error (PyError.notImplementedError versionedMsg), s)
  else
    match s.id with
    | (Except.ok v, s2) => (Except.ok { field := "pk", value := v }, s2)
    | (Except.error e, s2) => (Except.error e, s2)

/-- `type_name` read on a fresh instance. -/
def ResourceId.type_name (r : ResourceId) : Except PyError String :=
  (r.fresh.type_name).1

/-- `id` read on a fresh instance. -/
def ResourceId.id (r : ResourceId) : Except PyError String :=
  (r.fresh.id).1

/-- `build_query` called on a fresh instance. -/
def ResourceId.build_query (r : ResourceId) (fesquery : FesQuery) :
    Except PyError Q :=
  (r.fresh.build_query fesquery).1

/-- A parsed XML element as far as `from_xml` consults it: its attribute
list. -/
structure XMLElement where
  attrs : List (String × String)
deriving DecidableEq, Repr

/-- `element.get(name)`: the attribute's value, or `None` when absent. -/
def XMLElement.get (e : XMLElement) (name : String) : Option String :=
  (e.attrs.find? fun p => p.1 == name).map Prod.snd

/-- Modelled from the spec: `get_attribute` (`requireAttribute` in the
specification) lives in `gisserver.parsers.utils`, which is not part of
the supplied sources; per the contract it returns the attribute value and
fails with `MissingAttributeError` when the attribute is absent. -/
def get_attribute (e : XMLElement) (name : String) : Except PyError String :=
  match e.get name with
  | some v => Except.ok v
  | none => Except.error (PyError.missingAttributeError name)

/-- The numeric value of a digit list. -/
def digitsVal (l : List Char) : Nat :=
  l.foldl (fun a c => a * 10 + (c.toNat - 48)) 0

/-- An optional-sign decimal integer literal, or `none`. -/
def parseIntLit (s : String) : Option Int :=
  match s.data with
  | [] => none
  | '-' :: ds =>
    if ds ≠ [] ∧ ds.all Char.isDigit then some (-(digitsVal ds : Int)) else none
  | '+' :: ds =>
    if ds ≠ [] ∧ ds.all Char.isDigit then some (digitsVal ds : Int) else none
  | ds =>
    if ds.all Char.isDigit then some (digitsVal ds : Int) else none

/-- A plain decimal float literal: optional sign, digits, one dot,
digits. -/
def isSimpleFloat (s : String) : Bool :=
  let core := match s.data with
    | '-' :: rest => rest
    | '+' :: rest => rest
    | l => l
  match rsplitLast '.' core with
  | some p => p.1 ≠ [] && p.2 ≠ [] && p.1.all Char.isDigit && p.2.all Char.isDigit
  | none => false

/-- Modelled from the spec: `parse_iso_datetime` (`parseTimestamp`) lives
in `gisserver.parsers.utils`, which is not part of the supplied sources;
per the contract it parses a strict ISO-8601 timestamp
(`YYYY-MM-DDTHH:MM:SSZ` here) and fails with `MalformedValueError` on
anything else. -/
def parse_iso_datetime (s : String) : Except PyError Datetime :=
  match s.data with
  | [y1, y2, y3, y4, '-', m1, m2, '-', d1, d2, 'T',
     h1, h2, ':', n1, n2, ':', s1, s2, 'Z'] =>
    if [y1, y2, y3, y4, m1, m2, d1, d2, h1, h2, n1, n2, s1, s2].all Char.isDigit then
      let mo := digitsVal [m1, m2]
      let d := digitsVal [d1, d2]
      let h := digitsVal [h1, h2]
      let mi := digitsVal [n1, n2]
      let se := digitsVal [s1, s2]
      if 1 ≤ mo ∧ mo ≤ 12 ∧ 1 ≤ d ∧ d ≤ 31 ∧ h ≤ 23 ∧ mi ≤ 59 ∧ se ≤ 59 then
        Except.ok ⟨digitsVal [y1, y2, y3, y4], mo, d, h, mi, se⟩
      else Except.error (PyError.malformedValueError s)
    else Except.error (PyError.malformedValueError s)
  | _ => Except.error (PyError.malformedValueError s)

/-- The recognised `VersionActionTokens` literal, if any. -/
def tokenOf (s : String) : Option VersionActionTokens :=
  if s = "FIRST" then some VersionActionTokens.FIRST
  else if s = "LAST" then some VersionActionTokens.LAST
  else if s = "ALL" then some VersionActionTokens.ALL
  else if s = "NEXT" then some VersionActionTokens.NEXT
  else if s = "PREVIOUS" then some VersionActionTokens.PREVIOUS
  else none

/-- Modelled from the spec: `auto_cast` (`autoCast`) lives in
`gisserver.parsers.utils`, which is not part of the supplied sources; per
the contract it attempts typed parses in priority order — integer, ISO
timestamp, version-action token, float, boolean literal — and otherwise
returns the string unchanged, never failing. -/
def auto_cast (s : String) : Version :=
  match parseIntLit s with
  | some n => Version.int n
  | none =>
    match parse_iso_datetime s with
    | Except.ok d => Version.datetime d
    | Except.error _ =>
      match tokenOf s with
      | some t => Version.token t
      | none =>
        if isSimpleFloat s then Version.floatLit s
        else if s = "true" || s = "false" then Version.boolLit (s = "true")
        else Version.str s

/-- `x if x else None` applied to an optional attribute string, with
`parse_iso_datetime` on the truthy branch, as in the `startTime`/`endTime`
arguments of `from_xml`. -/
def parseOptTime (o : Option String) : Except PyError (Option Datetime) :=
  match o with
  | some s =>
    if s = "" then Except.ok none
    else (parse_iso_datetime s).map some
  | none => Except.ok none

/-- `ResourceId.from_xml`: read `version`/`startTime`/`endTime` via
`element.get`, auto-cast `version` only when truthy (so `""` is stored
unchanged and `None` stays `None`), then build the dataclass, evaluating
`get_attribute(element, "rid")` first and the two timestamp parses
afterwards, in keyword order. -/
def ResourceId.from_xml (e : XMLElement) : Except PyError ResourceId :=
  let version : Option Version :=
    match e.get "version" with
    | none => none
    | some s => if s = "" then some (Version.str s) else some (auto_cast s)
  match get_attribute e "rid" with
  | Except.error err => Except.error err
  | Except.ok rid =>
    match parseOptTime (e.get "startTime") with
    | Except.error err => Except.error err
    | Except.ok st =>
      match parseOptTime (e.get "endTime") with
      | Except.error err => Except.error err
      | Except.ok et =>
        Except.ok { rid := rid, version := version, startTime := st, endTime := et }

/-- Whether a `build_query` outcome is the unsupported-feature
(`NotImplementedError`) failure. -/
def isNotImplementedResult : Except PyError Q → Bool
  | Except.error (PyError.notImplementedError _) => true
  | _ => false

/-- Whether a `build_query` outcome is a `MalformedFilterError` failure
(the error kind the specification prescribes for a malformed `rid`). -/
def isMalformedFilterResult : Except PyError Q → Bool
  | Except.error (PyError.malformedFilterError _) => true
  | _ => false

/-- The value produced by `build_query` past the versioned-attributes
guard: `Q(pk=self.id)`, or the error raised by the `id` property. -/
def unversionedVal (r : ResourceId) : Except PyError Q :=
  match pyListGet r._rid_parts 1 with
  | Except.ok v => Except.ok { field := "pk", value := v }
  | Except.error e => Except.error e

theorem rid_parts_of_not_mem (r : ResourceId) (h : '.' ∉ r.rid.data) :
    r._rid_parts = [r.rid] := by
  unfold ResourceId._rid_parts
  rw [(rsplitLast_eq_none '.' r.rid.data).mpr h]

theorem rid_parts_of_split (r : ResourceId) (l b : List Char)
    (h : rsplitLast '.' r.rid.data = some (l, b)) :
    r._rid_parts = [String.mk l, String.mk b] := by
  unfold ResourceId._rid_parts
  rw [h]

theorem type_name_eq (r : ResourceId) : r.type_name = pyListGet r._rid_parts 0 := rfl

theorem id_val_eq (r : ResourceId) : r.id = pyListGet r._rid_parts 1 := rfl

theorem fresh_build_versioned (r : ResourceId) (fq : FesQuery)
    (h : versionedCond r = true) :
    r.fresh.build_query fq
      = (Except.error (PyError.notImplementedError versionedMsg), r.fresh) := by
  unfold ResourceIdState.build_query
  rw [show (ResourceId.fresh r).node = r from rfl, h]
  rfl

theorem fresh_build_unversioned (r : ResourceId) (fq : FesQuery)
    (h : versionedCond r = false) :
    r.fresh.build_query fq
      = (unversionedVal r, (⟨r, some r._rid_parts⟩ : ResourceIdState)) := by
  unfold ResourceIdState.build_query
  rw [show (ResourceId.fresh r).node = r from rfl, h]
  rw [show (ResourceId.fresh r).id
        = (pyListGet r._rid_parts 1, (⟨r, some r._rid_parts⟩ : ResourceIdState)) from rfl]
  unfold unversionedVal
  cases hv : pyListGet r._rid_parts 1 with
  | ok v => rfl
  | error e => rfl

theorem cached_build_unversioned (r : ResourceId) (fq : FesQuery)
    (h : versionedCond r = false) :
    (⟨r, some r._rid_parts⟩ : ResourceIdState).build_query fq
      = (unversionedVal r, (⟨r, some r._rid_parts⟩ : ResourceIdState)) := by
  unfold ResourceIdState.build_query
  rw [show (⟨r, some r._rid_parts⟩ : ResourceIdState).node = r from rfl, h]
  rw [show (⟨r, some r._rid_parts⟩ : ResourceIdState).id
        = (pyListGet r._rid_parts 1, (⟨r, some r._rid_parts⟩ : ResourceIdState)) from rfl]
  unfold unversionedVal
  cases hv : pyListGet r._rid_parts 1 with
  | ok v => rfl
  | error e => rfl

theorem build_query_versioned (r : ResourceId) (fq : FesQuery)
    (h : versionedCond r = true) :
    r.build_query fq = Except.error (PyError.notImplementedError versionedMsg) := by
  unfold ResourceId.build_query
  rw [fresh_build_versioned r fq h]

theorem build_query_unversioned (r : ResourceId) (fq : FesQuery)
    (h : versionedCond r = false) :
    r.build_query fq = unversionedVal r := by
  unfold ResourceId.build_query
  rw [fresh_build_unversioned r fq h]

theorem cached_rid_parts_node (s : ResourceIdState) :
    (s.cached_rid_parts).2.node = s.node := by
  obtain ⟨n, c⟩ := s
  cases c <;> rfl

theorem id_state_node (s : ResourceIdState) : ((s.id).2).node = s.node :=
  cached_rid_parts_node s

theorem build_query_state_node (s : ResourceIdState) (fq : FesQuery) :
    ((s.build_query fq).2).node = s.node := by
  unfold ResourceIdState.build_query
  cases hc : versionedCond s.node with
  | true => rfl
  | false =>
    cases hq : s.id with
    | mk i s2 =>
      have h2 : s2.node = s.node := by
        rw [← id_state_node s, hq]
      cases i <;> exact h2

/-- Claim C1, counterexample: a `ResourceId` whose `version` attribute is
the non-empty value `0` (an integer, neither `None` nor the empty string)
is NOT rejected by `build_query`: the versioned guard tests truthiness, so
`version=0` slips through and an ordinary primary-key predicate is
returned instead of the unsupported-feature error. -/
theorem buildQuery_zero_version_counterexample :
    (⟨"Roads.7", some (Version.int 0), none, none⟩ : ResourceId).version ≠ none ∧
    (⟨"Roads.7", some (Version.int 0), none, none⟩ : ResourceId).version
      ≠ some (Version.str "") ∧
    ResourceId.build_query ⟨"Roads.7", some (Version.int 0), none, none⟩ ⟨⟩
      = Except.ok ⟨"pk", "7"⟩ ∧
    isNotImplementedResult
      (ResourceId.build_query ⟨"Roads.7", some (Version.int 0), none, none⟩ ⟨⟩)
      = false := by
  refine ⟨by decide, by decide, rfl, rfl⟩

/-- Claim C1, amended: for every `ResourceId` whose `startTime` or
`endTime` is set, or whose `version` is truthy (set and none of `0`,
`0.0`, `""`, `False`), `build_query` fails with the
unsupported-feature error (`NotImplementedError`, whose message names the
`startTime`/`endTime`/`version` attributes), regardless of the other
fields. -/
theorem buildQuery_versioned_truthy_error (r : ResourceId) (fq : FesQuery)
    (h : r.startTime ≠ none ∨ r.endTime ≠ none ∨ truthyOptVersion r.version = true) :
    r.build_query fq = Except.error (PyError.notImplementedError versionedMsg) := by
  apply build_query_versioned r fq
  unfold versionedCond
  rcases h with h | h | h
  · cases hs : r.startTime with
    | none => exact absurd hs h
    | some d => rfl
  · cases hs : r.endTime with
    | none => exact absurd hs h
    | some d => cases truthyOptDatetime r.startTime <;> rfl
  · rw [h]
    cases truthyOptDatetime r.startTime <;> cases truthyOptDatetime r.endTime <;> rfl

/-- Witness for C1's amended theorem at a concrete versioned node. -/
theorem buildQuery_versioned_truthy_error_witness :
    ((⟨"Roads.7", some (Version.int 5), none, none⟩ : ResourceId).startTime ≠ none ∨
     (⟨"Roads.7", some (Version.int 5), none, none⟩ : ResourceId).endTime ≠ none ∨
     truthyOptVersion (⟨"Roads.7", some (Version.int 5), none, none⟩ : ResourceId).version
       = true) ∧
    ResourceId.build_query ⟨"Roads.7", some (Version.int 5), none, none⟩ ⟨⟩
      = Except.error (PyError.notImplementedError versionedMsg) :=
  ⟨Or.inr (Or.inr (by decide)),
   buildQuery_versioned_truthy_error ⟨"Roads.7", some (Version.int 5), none, none⟩ ⟨⟩
     (Or.inr (Or.inr (by decide)))⟩

/-- Claim C2, counterexample: on the single-segment rid `"Roads"` (no `.`
separator, nothing versioned), `build_query` fails with `IndexError` (the
bare list-subscript failure of `self._rid_parts[1]`), not with a
`MalformedFilterError`. -/
theorem buildQuery_no_separator_index_error_cex :
    ('.' ∉ ("Roads" : String).data) ∧
    ResourceId.build_query ⟨"Roads", none, none, none⟩ ⟨⟩
      = Except.error PyError.indexError ∧
    isMalformedFilterResult (ResourceId.build_query ⟨"Roads", none, none, none⟩ ⟨⟩)
      = false := by
  refine ⟨by decide, rfl, rfl⟩

/-- Claim C2, amended: for every `ResourceId` whose rid contains no `.`
separator, `build_query` never yields a predicate: it fails, with
`IndexError` from the missing second rid segment (or, on a versioned-mode
node, with the `NotImplementedError` guard that fires first). -/
theorem buildQuery_no_separator_never_ok (r : ResourceId) (fq : FesQuery)
    (h : '.' ∉ r.rid.data) :
    r.build_query fq = Except.error PyError.indexError ∨
    r.build_query fq = Except.error (PyError.notImplementedError versionedMsg) := by
  cases hc : versionedCond r with
  | true => exact Or.inr (build_query_versioned r fq hc)
  | false =>
    refine Or.inl ?_
    rw [build_query_unversioned r fq hc]
    unfold unversionedVal
    rw [rid_parts_of_not_mem r h]
    rfl

/-- Witness for C2's amended theorem at the single-segment rid
`"Roads"`. -/
theorem buildQuery_no_separator_never_ok_witness :
    ('.' ∉ ("Roads" : String).data) ∧
    (ResourceId.build_query ⟨"Roads", none, none, none⟩ ⟨⟩
       = Except.error PyError.indexError ∨
     ResourceId.build_query ⟨"Roads", none, none, none⟩ ⟨⟩
       = Except.error (PyError.notImplementedError versionedMsg)) :=
  ⟨by decide, buildQuery_no_separator_never_ok ⟨"Roads", none, none, none⟩ ⟨⟩ (by decide)⟩

/-- Claim C3 (confirmed): for every rid of the form `Type ++ "." ++ id`
(with the id segment dot-free) and `version`/`startTime`/`endTime` all
unset, `build_query` returns the equality predicate `Q(pk=id)`, and the
`type_name` property returns `Type`; the predicate itself carries only the
`pk` field and the id value, not the type name. -/
theorem buildQuery_type_dot_id_predicate (t k : String) (fq : FesQuery)
    (hk : '.' ∉ k.data) :
    ResourceId.build_query ⟨t ++ "." ++ k, none, none, none⟩ fq
      = Except.ok ⟨"pk", k⟩ ∧
    ResourceId.type_name ⟨t ++ "." ++ k, none, none, none⟩ = Except.ok t := by
  have hdata : (t ++ "." ++ k).data = t.data ++ '.' :: k.data := by
    rw [string_append_data, string_append_data]
    show t.data ++ ['.'] ++ k.data = t.data ++ '.' :: k.data
    rw [List.append_assoc]
    rfl
  have hsplit : rsplitLast '.'
      (⟨t ++ "." ++ k, none, none, none⟩ : ResourceId).rid.data
      = some (t.data, k.data) := by
    show rsplitLast '.' (t ++ "." ++ k).data = _
    rw [hdata]
    exact rsplitLast_concat '.' k.data hk t.data
  have hparts := rid_parts_of_split _ _ _ hsplit
  rw [string_mk_data, string_mk_data] at hparts
  constructor
  · rw [build_query_unversioned ⟨t ++ "." ++ k, none, none, none⟩ fq rfl]
    unfold unversionedVal
    rw [hparts]
    rfl
  · rw [type_name_eq, hparts]
    rfl

/-- Witness for C3 at `rid = "Type.123"`. -/
theorem buildQuery_type_dot_id_predicate_witness :
    ('.' ∉ ("123" : String).data) ∧
    (ResourceId.build_query ⟨"Type" ++ "." ++ "123", none, none, none⟩ ⟨⟩
       = Except.ok ⟨"pk", "123"⟩ ∧
     ResourceId.type_name ⟨"Type" ++ "." ++ "123", none, none, none⟩
       = Except.ok "Type") :=
  ⟨by decide, buildQuery_type_dot_id_predicate "Type" "123" ⟨⟩ (by decide)⟩

/-- Claim C4 (confirmed): for every `ResourceId` whose rid contains a `.`,
the rid is split once from the right: `type_name` and `id` both succeed,
the `id` segment contains no further `.` (it is everything after the LAST
dot), and `type_name ++ "." ++ id` reconstructs the rid exactly. -/
theorem ridSplit_last_reconstructs (r : ResourceId) (h : '.' ∈ r.rid.data) :
    Except.bind r.type_name
        (fun tn => Except.map (fun i => tn ++ "." ++ i) r.id)
      = Except.ok r.rid ∧
    Except.map (fun i => decide ('.' ∈ i.data)) r.id = Except.ok false := by
  cases hsp : rsplitLast '.' r.rid.data with
  | none =>
    exact absurd ((rsplitLast_eq_none '.' r.rid.data).mp hsp) (by simpa using h)
  | some p =>
    obtain ⟨l, b⟩ := p
    have hparts := rid_parts_of_split r l b hsp
    have hsome := rsplitLast_eq_some '.' r.rid.data l b hsp
    have htn : r.type_name = Except.ok (String.mk l) := by
      rw [type_name_eq, hparts]
      rfl
    have hid : r.id = Except.ok (String.mk b) := by
      rw [id_val_eq, hparts]
      rfl
    constructor
    · rw [htn, hid]
      show Except.ok (String.mk l ++ "." ++ String.mk b) = Except.ok r.rid
      congr 1
      apply string_data_ext
      rw [string_append_data, string_append_data]
      show l ++ ['.'] ++ b = r.rid.data
      rw [hsome.1, List.append_assoc]
      rfl
    · rw [hid]
      show Except.ok (decide ('.' ∈ b)) = Except.ok false
      congr 1
      exact decide_eq_false hsome.2

/-- Witness for C4 at `rid = "a.b.c"`: the split is from the right, so
`type_name` is `"a.b"` and `id` is `"c"`. -/
theorem ridSplit_last_reconstructs_witness :
    ('.' ∈ ("a.b.c" : String).data) ∧
    (Except.bind (ResourceId.type_name ⟨"a.b.c", none, none, none⟩)
         (fun tn => Except.map (fun i => tn ++ "." ++ i)
           (ResourceId.id ⟨"a.b.c", none, none, none⟩))
       = Except.ok "a.b.c" ∧
     Except.map (fun i => decide ('.' ∈ i.data))
         (ResourceId.id ⟨"a.b.c", none, none, none⟩) = Except.ok false) ∧
    ResourceId.type_name ⟨"a.b.c", none, none, none⟩ = Except.ok "a.b" ∧
    ResourceId.id ⟨"a.b.c", none, none, none⟩ = Except.ok "c" :=
  ⟨by decide, ridSplit_last_reconstructs ⟨"a.b.c", none, none, none⟩ (by decide),
   rfl, rfl⟩

/-- Claim C5, counterexample: constructing a `ResourceId` via `from_xml`
from an element whose `rid` attribute has NO separator does not fail:
`from_xml` performs no separator check, so construction succeeds and
returns the node. -/
theorem from_xml_no_separator_ok_cex :
    ('.' ∉ ("Roads" : String).data) ∧
    ResourceId.from_xml ⟨[("rid", "Roads")]⟩
      = Except.ok ⟨"Roads", none, none, none⟩ := by
  refine ⟨by decide, rfl⟩

/-- Claim C5, amended: the rid separator invariant is NOT enforced at
construction time: `from_xml` on an element carrying any `rid` attribute
(and nothing else) succeeds, whether or not the rid contains the
separator; a missing separator only surfaces later, as the `IndexError`
raised when the `id` part of the constructed node is accessed. -/
theorem from_xml_no_separator_deferred (s : String) :
    ResourceId.from_xml ⟨[("rid", s)]⟩ = Except.ok ⟨s, none, none, none⟩ ∧
    ('.' ∉ s.data →
      ResourceId.id ⟨s, none, none, none⟩ = Except.error PyError.indexError) := by
  constructor
  · rfl
  · intro h
    rw [id_val_eq, rid_parts_of_not_mem ⟨s, none, none, none⟩ h]
    rfl

/-- Witness for C5's amended theorem at `rid = "Roads"`. -/
theorem from_xml_no_separator_deferred_witness :
    ('.' ∉ ("Roads" : String).data) ∧
    ResourceId.from_xml ⟨[("rid", "Roads")]⟩
      = Except.ok ⟨"Roads", none, none, none⟩ ∧
    ResourceId.id ⟨"Roads", none, none, none⟩ = Except.error PyError.indexError :=
  ⟨by decide, (from_xml_no_separator_deferred "Roads").1,
   (from_xml_no_separator_deferred "Roads").2 (by decide)⟩

/-- Claim C6 (confirmed): `from_xml` requires the `rid` attribute: for
every element on which `element.get("rid")` is `None`, construction fails
with `MissingAttributeError` naming `rid` (the `rid` keyword argument is
evaluated before the timestamp parses, so this failure wins regardless of
the other attributes). -/
theorem from_xml_missing_rid_fails (e : XMLElement) (h : e.get "rid" = none) :
    ResourceId.from_xml e = Except.error (PyError.missingAttributeError "rid") := by
  unfold ResourceId.from_xml get_attribute
  rw [h]

/-- Witness for C6 at the attribute-less element. -/
theorem from_xml_missing_rid_fails_witness :
    XMLElement.get ⟨[]⟩ "rid" = none ∧
    ResourceId.from_xml ⟨[]⟩ = Except.error (PyError.missingAttributeError "rid") :=
  ⟨rfl, from_xml_missing_rid_fails ⟨[]⟩ rfl⟩

/-- Claim C7 (confirmed): `build_query` is deterministic and idempotent.
On any instance the second call (which sees the `_rid_parts` memo written
by the first) returns exactly the first call's outcome and leaves the
instance state fixed; and concretely, a node constructed from an element
with `rid="Roads.7"` and no other attributes yields `Q(pk="7")`. -/
theorem buildQuery_deterministic_idempotent :
    (∀ (r : ResourceId) (fq fq2 : FesQuery),
       ((r.fresh.build_query fq).2).build_query fq2 = r.fresh.build_query fq) ∧
    ResourceId.from_xml ⟨[("rid", "Roads.7")]⟩
      = Except.ok ⟨"Roads.7", none, none, none⟩ ∧
    ResourceId.build_query ⟨"Roads.7", none, none, none⟩ ⟨⟩
      = Except.ok ⟨"pk", "7"⟩ := by
  refine ⟨?_, rfl, rfl⟩
  intro r fq fq2
  cases hc : versionedCond r with
  | true =>
    rw [fresh_build_versioned r fq hc]
    exact fresh_build_versioned r fq2 hc
  | false =>
    rw [fresh_build_unversioned r fq hc]
    exact cached_build_unversioned r fq2 hc

/-- Claim C8 (confirmed): `build_query` never mutates the dataclass
fields: on any instance state (fresh or already carrying the `_rid_parts`
memo), after a call to `build_query` — whether it returns a predicate or
fails — `rid`, `version`, `startTime` and `endTime` are unchanged. -/
theorem buildQuery_preserves_node_fields (s : ResourceIdState) (fq : FesQuery) :
    ((s.build_query fq).2).node.rid = s.node.rid ∧
    ((s.build_query fq).2).node.version = s.node.version ∧
    ((s.build_query fq).2).node.startTime = s.node.startTime ∧
    ((s.build_query fq).2).node.endTime = s.node.endTime := by
  rw [build_query_state_node s fq]
  exact ⟨rfl, rfl, rfl, rfl⟩

/-- Claim C9 (confirmed): on a rid without a `.` separator, the
`type_name` property does not fail: it returns the whole rid unchanged;
the missing-separator failure (`IndexError`) only surfaces when the `id`
part is accessed. -/
theorem type_name_no_separator_total (r : ResourceId) (h : '.' ∉ r.rid.data) :
    r.type_name = Except.ok r.rid ∧ r.id = Except.error PyError.indexError := by
  have hp := rid_parts_of_not_mem r h
  constructor
  · rw [type_name_eq, hp]
    rfl
  · rw [id_val_eq, hp]
    rfl

/-- Witness for C9 at the separator-less rid `"NoDot"`. -/
theorem type_name_no_separator_total_witness :
    ('.' ∉ ("NoDot" : String).data) ∧
    (ResourceId.type_name ⟨"NoDot", none, none, none⟩ = Except.ok "NoDot" ∧
     ResourceId.id ⟨"NoDot", none, none, none⟩ = Except.error PyError.indexError) :=
  ⟨by decide, type_name_no_separator_total ⟨"NoDot", none, none, none⟩ (by decide)⟩

/-- Claim C10 (confirmed): versioned mode is detected by truthiness, not
presence: a `ResourceId` whose `version` is the falsy non-`None` value `0`
or `""` (with `startTime`/`endTime` unset) is treated by `build_query`
exactly as the unversioned node with the same rid — no unsupported-feature
error is raised. -/
theorem buildQuery_falsy_version_unversioned (r : ResourceId) (fq : FesQuery)
    (hv : r.version = some (Version.int 0) ∨ r.version = some (Version.str ""))
    (hst : r.startTime = none) (het : r.endTime = none) :
    r.build_query fq = ResourceId.build_query ⟨r.rid, none, none, none⟩ fq ∧
    isNotImplementedResult (r.build_query fq) = false := by
  have hcond : versionedCond r = false := by
    unfold versionedCond
    rw [hst, het]
    rcases hv with hv | hv <;> rw [hv] <;> rfl
  have h1 : r.build_query fq = unversionedVal r :=
    build_query_unversioned r fq hcond
  have h2 : ResourceId.build_query ⟨r.rid, none, none, none⟩ fq
      = unversionedVal ⟨r.rid, none, none, none⟩ :=
    build_query_unversioned ⟨r.rid, none, none, none⟩ fq rfl
  have h3 : unversionedVal r = unversionedVal ⟨r.rid, none, none, none⟩ := by
    unfold unversionedVal ResourceId._rid_parts
    rfl
  refine ⟨by rw [h1, h2, h3], ?_⟩
  rw [h1]
  unfold unversionedVal
  cases hg : r._rid_parts.get? 1 with
  | some v =>
    unfold pyListGet
    rw [hg]
    rfl
  | none =>
    unfold pyListGet
    rw [hg]
    rfl

/-- Witness for C10: `from_xml` on an element with `version=""` skips the
auto-cast and stores the empty string, and the resulting node builds the
same `Q(pk="7")` predicate as the unversioned node. -/
theorem buildQuery_falsy_version_unversioned_witness :
    ResourceId.from_xml ⟨[("rid", "Roads.7"), ("version", "")]⟩
      = Except.ok ⟨"Roads.7", some (Version.str ""), none, none⟩ ∧
    (ResourceId.build_query ⟨"Roads.7", some (Version.str ""), none, none⟩ ⟨⟩
       = ResourceId.build_query ⟨"Roads.7", none, none, none⟩ ⟨⟩ ∧
     isNotImplementedResult
       (ResourceId.build_query ⟨"Roads.7", some (Version.str ""), none, none⟩ ⟨⟩)
       = false) ∧
    ResourceId.build_query ⟨"Roads.7", some (Version.str ""), none, none⟩ ⟨⟩
      = Except.ok ⟨"pk", "7"⟩ :=
  ⟨rfl,
   buildQuery_falsy_version_unversioned ⟨"Roads.7", some (Version.str ""), none, none⟩ ⟨⟩
     (Or.inr rfl) rfl rfl,
   rfl⟩
